import Mathlib

/-!
The applet installer: card-session lifecycle and command dispatch.

A shallow embedding of `cmd/applet-installer/main.go`.

The program talks to three external collaborators (the PC/SC layer `scard`,
the `actionsets.Installer`, and the file system).  Their answers are supplied
by a `World` record; every call the program makes to them, every logger call
and every write to standard output is appended to a chronological trace.

Two features of Go are modelled explicitly because the claims depend on them:

* `os.Exit` terminates the process on the spot: the statements that follow
  are not executed and the deferred calls of the active functions are not run;
* `defer` pushes a call on the stack of the running function; the stack is
  run, last pushed first, when that function returns.

`init` and `initLogger` run before `main`: they parse the flags, recorded here
as a `Flags` value, and install the level filter of the logger.  The trace
records the calls `logger.Error` and `logger.Debug` as `main` makes them, before
that filter is applied by the logging library.
-/

namespace AppletInstaller

/-- Go `error` values are represented by their message. -/
abbrev Err := String

/-- The three values produced by `Installer.Init`. -/
structure Secrets where
  pin : String
  puk : String
  pairingPass : String
deriving DecidableEq, Repr

/-- The command-line flags read by `main` and the handlers
(`-c`, `-f`, `-o`), after `flag.Parse`. -/
structure Flags where
  flagCommand : String
  flagCapFile : String
  flagOverwrite : Bool
deriving DecidableEq, Repr

/-- Answers of the external collaborators during one run.  `none` in an
`Option Err` field means the call returned a nil error. -/
structure World where
  /-- result of `scard.EstablishContext()` -/
  establishContext : Option Err
  /-- result of `ctx.ListReaders()` -/
  listReaders : Except Err (List String)
  /-- result of `ctx.Connect(reader, ShareShared, ProtocolAny)` -/
  connect : String → Option Err
  /-- result of `card.Status()`: the active protocol, or an error -/
  cardStatus : Except Err Nat
  /-- result of `card.Disconnect(scard.ResetCard)` -/
  disconnect : Option Err
  /-- result of `ctx.Release()` -/
  release : Option Err
  /-- result of `os.Open(path)` -/
  osOpen : String → Option Err
  /-- result of `Installer.Install(f, overwrite)`, `f` being the file opened at the path -/
  install : String → Bool → Option Err
  /-- result of `Installer.Info()` -/
  info : Except Err Bool
  /-- result of `Installer.Delete()` -/
  delete : Option Err
  /-- result of `Installer.Init()` -/
  init : Except Err Secrets
  /-- order in which `range commands` visits the keys of the map (unspecified in Go) -/
  rangeOrder : List String

/-- Observable actions of a run, in the order they happen. -/
inductive Event where
  /-- `logger.Error(msg, ctx...)`, the context given as key/value pairs -/
  | logError (msg : String) (ctx : List (String × String))
  /-- `logger.Debug(msg, ctx...)` -/
  | logDebug (msg : String) (ctx : List (String × String))
  /-- text written to standard output by `fmt.Printf` / `fmt.Print` -/
  | printf (s : String)
  /-- `flag.PrintDefaults()` -/
  | printDefaults
  | establishContext
  | listReaders
  | connect (reader : String)
  | cardStatus
  /-- `card.Disconnect(scard.ResetCard)` -/
  | disconnect
  /-- `ctx.Release()` -/
  | release
  /-- `actionsets.NewInstaller(card)` -/
  | newInstaller
  | osOpen (path : String)
  | fileClose
  | installerInstall (path : String) (overwrite : Bool)
  | installerInfo
  | installerDelete
  | installerInit
deriving DecidableEq, Repr

/-- The calls that can be deferred in this program. -/
inductive Deferred where
  /-- the closure deferred at `main.go:80` -/
  | releaseContext
  /-- the closure deferred at `main.go:106` -/
  | disconnectCard
  /-- `defer f.Close()` at `main.go:150` -/
  | closeFile
deriving DecidableEq, Repr

/-- Machine state: the trace so far and the defer stack of the running function. -/
structure State where
  trace : List Event
  defers : List Deferred
deriving DecidableEq, Repr

/-- How a piece of code ends: it returns a value, or the process exits. -/
inductive Outcome (α : Type) where
  | ret (a : α)
  | exit (code : Nat)
deriving DecidableEq, Repr

/-- Computations of the program. -/
def Proc (α : Type) : Type := State → State × Outcome α

/-- Return a value. -/
def Proc.pure {α : Type} (a : α) : Proc α := fun s => (s, Outcome.ret a)

/-- Sequencing: once the process has exited nothing more runs. -/
def Proc.bind {α β : Type} (m : Proc α) (f : α → Proc β) : Proc β := fun s =>
  match m s with
  | (s1, Outcome.ret a) => f a s1
  | (s1, Outcome.exit c) => (s1, Outcome.exit c)

instance : Monad Proc where
  pure := Proc.pure
  bind := Proc.bind

/-- Append one event to the trace. -/
def emit (e : Event) : Proc Unit := fun s =>
  (State.mk (s.trace ++ [e]) s.defers, Outcome.ret ())

/-- `os.Exit(code)`. -/
def osExit {α : Type} (code : Nat) : Proc α := fun s => (s, Outcome.exit code)

/-- `defer d`: push on the defer stack of the running function. -/
def deferCall (d : Deferred) : Proc Unit := fun s =>
  (State.mk s.trace (d :: s.defers), Outcome.ret ())

/-- Body of a deferred call. -/
def runDeferred (w : World) : Deferred → Proc Unit
  | Deferred.releaseContext => do
      emit Event.release
      match w.release with
      | some err => emit (Event.logError "error releasing context" [("error", err)])
      | none => pure ()
  | Deferred.disconnectCard => do
      emit Event.disconnect
      match w.disconnect with
      | some err => emit (Event.logError "error disconnecting card" [("error", err)])
      | none => pure ()
  | Deferred.closeFile => emit Event.fileClose

/-- Run a defer stack, most recently deferred call first. -/
def runDefers (w : World) : List Deferred → Proc Unit
  | [] => pure ()
  | d :: ds => do
      runDeferred w d
      runDefers w ds

/-- A Go function call: the body runs with a fresh defer stack; when it
returns, its deferred calls run and the caller's stack is restored.  When the
process exits inside the body, the deferred calls are not run. -/
def call {α : Type} (w : World) (body : Proc α) : Proc α := fun s =>
  match body (State.mk s.trace []) with
  | (s1, Outcome.ret a) =>
      match runDefers w s1.defers (State.mk s1.trace []) with
      | (s2, Outcome.ret _) => (State.mk s2.trace s.defers, Outcome.ret a)
      | (s2, Outcome.exit c) => (s2, Outcome.exit c)
  | (s1, Outcome.exit c) => (s1, Outcome.exit c)

/-- Handlers of the registry: `type commandFunc func(*actionsets.Installer) error`. -/
abbrev commandFunc := Flags → World → Proc (Option Err)

/-- The loop over `range commands` in `usage`: one line `- name` per key visited. -/
def rangeCommands : List String → Proc Unit
  | [] => pure ()
  | name :: rest => do
      emit (Event.printf ("- " ++ name ++ "\n"))
      rangeCommands rest

/-- The function `usage` (`main.go:55`). -/
def usage (w : World) : Proc Unit := do
  emit (Event.printf "\nUsage: hardware-wallet-light COMMAND [FLAGS]\n\nValid commands:\n\n")
  rangeCommands w.rangeOrder
  emit (Event.printf "\nFlags:\n\n")
  emit Event.printDefaults
  osExit 1

/-- The function `fail` (`main.go:65`). -/
def fail (msg : String) (ctx : List (String × String)) : Proc Unit := do
  emit (Event.logError msg ctx)
  osExit 1

/-- The function `commandInstall` (`main.go:140`). -/
def commandInstall : commandFunc := fun fl w => do
  if fl.flagCapFile = "" then
    emit (Event.logError "you must specify a cap file path with the -f flag\n" [])
    usage w
  emit (Event.osOpen fl.flagCapFile)
  match w.osOpen fl.flagCapFile with
  | some err => fail "error opening cap file" [("error", err)]
  | none => pure ()
  deferCall Deferred.closeFile
  emit (Event.installerInstall fl.flagCapFile fl.flagOverwrite)
  match w.install fl.flagCapFile fl.flagOverwrite with
  | some err => fail "installation error" [("error", err)]
  | none => pure ()
  emit (Event.printf "applet installed successfully.\n")
  return none

/-- The function `commandStatus` (`main.go:161`). -/
def commandStatus : commandFunc := fun _ w => do
  emit Event.installerInfo
  match w.info with
  | Except.error err => return some err
  | Except.ok installed =>
      if installed then
        emit (Event.printf "applet already installed\n")
      else
        emit (Event.printf "applet not installed\n")
      return none

/-- The function `commandDelete` (`main.go:176`). -/
def commandDelete : commandFunc := fun _ w => do
  emit Event.installerDelete
  match w.delete with
  | some err => return some err
  | none =>
      emit (Event.printf "applet deleted\n")
      return none

/-- The function `commandInit` (`main.go:187`). -/
def commandInit : commandFunc := fun _ w => do
  emit Event.installerInit
  match w.init with
  | Except.error err => return some err
  | Except.ok secrets =>
      emit (Event.printf ("PIN " ++ secrets.pin ++ "\n"))
      emit (Event.printf ("PUK " ++ secrets.puk ++ "\n"))
      emit (Event.printf ("Pairing password: " ++ secrets.pairingPass ++ "\n"))
      return none

/-- The registry built in `init()` (`main.go:47`). -/
def commands : List (String × commandFunc) :=
  [("install", commandInstall),
   ("status", commandStatus),
   ("delete", commandDelete),
   ("init", commandInit)]

/-- `scard.ProtocolT0`. -/
def ProtocolT0 : Nat := 1

/-- `scard.ProtocolT1`. -/
def ProtocolT1 : Nat := 2

/-- The function `main` (`main.go:70`). -/
def main (fl : Flags) (w : World) : Proc Unit := do
  if fl.flagCommand = "" then
    emit (Event.logError "you must specify a command" [])
    usage w
  emit Event.establishContext
  match w.establishContext with
  | some err => fail "error establishing card context" [("error", err)]
  | none => pure ()
  deferCall Deferred.releaseContext
  emit Event.listReaders
  match w.listReaders with
  | Except.error err => fail "error getting readers" [("error", err)]
  | Except.ok readers =>
  if readers.length = 0 then
    fail "couldn't find any reader" []
  if readers.length > 1 then
    fail "too many readers found" []
  -- `readers[0]`: the list has exactly one element here
  let reader := readers.headD ""
  emit (Event.logDebug "using reader" [("name", reader)])
  emit (Event.logDebug "connecting to card" [("reader", reader)])
  emit (Event.connect reader)
  match w.connect reader with
  | some err => fail "error connecting to card" [("error", err)]
  | none => pure ()
  deferCall Deferred.disconnectCard
  emit Event.cardStatus
  match w.cardStatus with
  | Except.error err => fail "error getting card status" [("error", err)]
  | Except.ok activeProtocol =>
  if activeProtocol = ProtocolT0 then
    emit (Event.logDebug "card protocol" [("T", "0")])
  else if activeProtocol = ProtocolT1 then
    emit (Event.logDebug "card protocol" [("T", "1")])
  else
    emit (Event.logDebug "card protocol" [("T", "unknown")])
  emit Event.newInstaller
  match commands.lookup fl.flagCommand with
  | some f =>
      let err ← call w (f fl w)
      match err with
      | some e =>
          emit (Event.logError "error executing command" [("command", fl.flagCommand), ("error", e)])
          osExit 1
      | none => osExit 0
  | none => pure ()
  fail "unknown command" [("command", fl.flagCommand)]
  usage w

/-- What is observed of a finished run. -/
structure Run where
  trace : List Event
  exitCode : Nat
deriving DecidableEq, Repr

/-- A whole run of the process: `main` is called on the empty trace; when it
returns the process exits with code 0. -/
def runMain (fl : Flags) (w : World) : Run :=
  match call w (main fl w) (State.mk [] []) with
  | (s, Outcome.ret _) => Run.mk s.trace 0
  | (s, Outcome.exit c) => Run.mk s.trace c

/-- Everything written to standard output, concatenated. -/
def stdout : List Event → String
  | [] => ""
  | Event.printf s :: es => s ++ stdout es
  | _ :: es => stdout es

end AppletInstaller

namespace AppletInstaller

/-! ## Specification vocabulary -/

/-- Label logged by `main` for the active protocol (`main.go:117`). -/
def protocolLabel (activeProtocol : Nat) : String :=
  if activeProtocol = ProtocolT0 then "0"
  else if activeProtocol = ProtocolT1 then "1"
  else "unknown"

/-- Events produced by `usage`. -/
def usageEvents (w : World) : List Event :=
  Event.printf "\nUsage: hardware-wallet-light COMMAND [FLAGS]\n\nValid commands:\n\n" ::
    (w.rangeOrder.map (fun name => Event.printf ("- " ++ name ++ "\n")) ++
      [Event.printf "\nFlags:\n\n", Event.printDefaults])

/-- Trace of `main` from its start to the creation of the Installer
(`main.go:76` to `main.go:126`) when every acquisition step succeeds. -/
def sessionEvents (reader : String) (activeProtocol : Nat) : List Event :=
  [Event.establishContext, Event.listReaders,
   Event.logDebug "using reader" [("name", reader)],
   Event.logDebug "connecting to card" [("reader", reader)],
   Event.connect reader, Event.cardStatus,
   Event.logDebug "card protocol" [("T", protocolLabel activeProtocol)],
   Event.newInstaller]

/-- Every acquisition step of `main` succeeds, with the single reader
`reader` and the active protocol `activeProtocol`. -/
def Acquired (w : World) (reader : String) (activeProtocol : Nat) : Prop :=
  w.establishContext = none ∧ w.listReaders = Except.ok [reader] ∧
    w.connect reader = none ∧ w.cardStatus = Except.ok activeProtocol

/-- The event is a call of an Installer operation. -/
def Event.isInstallerOp : Event → Bool
  | Event.installerInstall _ _ => true
  | Event.installerInfo => true
  | Event.installerDelete => true
  | Event.installerInit => true
  | _ => false

/-- The event is the release of the connection or of the context. -/
def Event.isRelease : Event → Bool
  | Event.disconnect => true
  | Event.release => true
  | _ => false

/-- The handler, once called, returns a nil error. -/
def ReturnsNil (f : commandFunc) (fl : Flags) (w : World) : Prop :=
  ∀ s : State, (f fl w s).2 = Outcome.ret none

/-- A healthy session: one reader, protocol T=1, every call succeeds, the
applet is installed. -/
def worldOk : World where
  establishContext := none
  listReaders := Except.ok ["r1"]
  connect := fun _ => none
  cardStatus := Except.ok ProtocolT1
  disconnect := none
  release := none
  osOpen := fun _ => none
  install := fun _ _ => none
  info := Except.ok true
  delete := none
  init := Except.ok (Secrets.mk "123456" "000000000000" "abc")
  rangeOrder := ["install", "status", "delete", "init"]

/-- The session of `worldOk`, except that `Installer.Delete` reports "locked". -/
def worldLocked : World := { worldOk with delete := some "locked" }

/-- The session of `worldOk`, except that `card.Status` fails. -/
def worldStatusFails : World := { worldOk with cardStatus := Except.error "card removed" }

/-- The session of `worldOk`, except that `Installer.Install` reports "locked". -/
def worldInstallFails : World := { worldOk with install := fun _ _ => some "locked" }

/-- The session of `worldOk`, except that the applet is not installed. -/
def worldAbsent : World := { worldOk with info := Except.ok false }

/-- The session of `worldOk`, except that two readers are listed. -/
def worldTwoReaders : World := { worldOk with listReaders := Except.ok ["r1", "r2"] }

/-- The world `w` with other answers to `card.Disconnect` and `ctx.Release`. -/
def withRelease (w : World) (disconnect release : Option Err) : World :=
  { w with disconnect := disconnect, release := release }

/-- The command is registered, every acquisition step succeeds (so that the
handler is called), and the handler returns a nil error. -/
def HandlerSucceeds (fl : Flags) (w : World) : Prop :=
  ∃ f, commands.lookup fl.flagCommand = some f ∧ (∃ r p, Acquired w r p) ∧ ReturnsNil f fl w

/-- The run reaches the handler of one of the four registered commands and
the Installer operation of that command succeeds: every acquisition step
succeeds and `install` has a cap file that opens and installs, or `status` gets
an answer from `Info`, or `delete` succeeds, or `init` yields secrets. -/
def CommandSucceeds (fl : Flags) (w : World) : Prop :=
  ∃ r p, Acquired w r p ∧
    ((fl.flagCommand = "install" ∧ fl.flagCapFile ≠ "" ∧ w.osOpen fl.flagCapFile = none ∧
        w.install fl.flagCapFile fl.flagOverwrite = none) ∨
      (fl.flagCommand = "status" ∧ ∃ b, w.info = Except.ok b) ∨
      (fl.flagCommand = "delete" ∧ w.delete = none) ∨
      (fl.flagCommand = "init" ∧ ∃ secrets, w.init = Except.ok secrets))

/-! ## Evaluation lemmas -/

theorem bind_apply {α β : Type} (m : Proc α) (f : α → Proc β) (s : State) :
    (m >>= f) s = match m s with
      | (s1, Outcome.ret a) => f a s1
      | (s1, Outcome.exit c) => (s1, Outcome.exit c) := rfl

theorem pure_apply {α : Type} (a : α) (s : State) :
    (pure a : Proc α) s = (s, Outcome.ret a) := rfl

theorem rangeCommands_apply (names : List String) (s : State) :
    rangeCommands names s =
      (State.mk (s.trace ++ names.map (fun name => Event.printf ("- " ++ name ++ "\n"))) s.defers,
        Outcome.ret ()) := by
  induction names generalizing s with
  | nil => simp [rangeCommands, pure_apply]
  | cons n ns ih => simp [rangeCommands, bind_apply, emit, ih]

theorem usage_apply (w : World) (s : State) :
    usage w s = (State.mk (s.trace ++ usageEvents w) s.defers, Outcome.exit 1) := by
  simp [usage, bind_apply, emit, rangeCommands_apply, osExit, usageEvents]

theorem fail_apply (msg : String) (ctx : List (String × String)) (s : State) :
    fail msg ctx s =
      (State.mk (s.trace ++ [Event.logError msg ctx]) s.defers, Outcome.exit 1) := by
  simp [fail, bind_apply, emit, osExit]

theorem commandInstall_empty (fl : Flags) (w : World) (s : State)
    (h : fl.flagCapFile = "") :
    commandInstall fl w s =
      (State.mk (s.trace ++
          Event.logError "you must specify a cap file path with the -f flag\n" [] ::
            usageEvents w) s.defers,
        Outcome.exit 1) := by
  simp [commandInstall, bind_apply, emit, usage_apply, h]

theorem commandInstall_open_error (fl : Flags) (w : World) (s : State) (e : Err)
    (h : fl.flagCapFile ≠ "") (ho : w.osOpen fl.flagCapFile = some e) :
    commandInstall fl w s =
      (State.mk (s.trace ++ [Event.osOpen fl.flagCapFile,
          Event.logError "error opening cap file" [("error", e)]]) s.defers,
        Outcome.exit 1) := by
  simp [commandInstall, bind_apply, pure_apply, emit, fail_apply, h, ho]

theorem commandInstall_error (fl : Flags) (w : World) (s : State) (e : Err)
    (h : fl.flagCapFile ≠ "") (ho : w.osOpen fl.flagCapFile = none)
    (hi : w.install fl.flagCapFile fl.flagOverwrite = some e) :
    commandInstall fl w s =
      (State.mk (s.trace ++ [Event.osOpen fl.flagCapFile,
          Event.installerInstall fl.flagCapFile fl.flagOverwrite,
          Event.logError "installation error" [("error", e)]])
          (Deferred.closeFile :: s.defers),
        Outcome.exit 1) := by
  simp [commandInstall, bind_apply, pure_apply, emit, deferCall, fail_apply, h, ho, hi]

theorem commandInstall_ok (fl : Flags) (w : World) (s : State)
    (h : fl.flagCapFile ≠ "") (ho : w.osOpen fl.flagCapFile = none)
    (hi : w.install fl.flagCapFile fl.flagOverwrite = none) :
    commandInstall fl w s =
      (State.mk (s.trace ++ [Event.osOpen fl.flagCapFile,
          Event.installerInstall fl.flagCapFile fl.flagOverwrite,
          Event.printf "applet installed successfully.\n"])
          (Deferred.closeFile :: s.defers),
        Outcome.ret none) := by
  simp [commandInstall, bind_apply, pure_apply, emit, deferCall, h, ho, hi]

theorem commandStatus_ok (fl : Flags) (w : World) (s : State) (b : Bool)
    (h : w.info = Except.ok b) :
    commandStatus fl w s =
      (State.mk (s.trace ++ [Event.installerInfo,
          Event.printf (if b then "applet already installed\n" else "applet not installed\n")])
          s.defers,
        Outcome.ret none) := by
  cases b <;> simp [commandStatus, bind_apply, pure_apply, emit, h]

theorem commandStatus_error (fl : Flags) (w : World) (s : State) (e : Err)
    (h : w.info = Except.error e) :
    commandStatus fl w s =
      (State.mk (s.trace ++ [Event.installerInfo]) s.defers, Outcome.ret (some e)) := by
  simp [commandStatus, bind_apply, pure_apply, emit, h]

theorem commandDelete_ok (fl : Flags) (w : World) (s : State) (h : w.delete = none) :
    commandDelete fl w s =
      (State.mk (s.trace ++ [Event.installerDelete, Event.printf "applet deleted\n"]) s.defers,
        Outcome.ret none) := by
  simp [commandDelete, bind_apply, pure_apply, emit, h]

theorem commandDelete_error (fl : Flags) (w : World) (s : State) (e : Err)
    (h : w.delete = some e) :
    commandDelete fl w s =
      (State.mk (s.trace ++ [Event.installerDelete]) s.defers, Outcome.ret (some e)) := by
  simp [commandDelete, bind_apply, pure_apply, emit, h]

theorem commandInit_ok (fl : Flags) (w : World) (s : State) (secrets : Secrets)
    (h : w.init = Except.ok secrets) :
    commandInit fl w s =
      (State.mk (s.trace ++ [Event.installerInit,
          Event.printf ("PIN " ++ secrets.pin ++ "\n"),
          Event.printf ("PUK " ++ secrets.puk ++ "\n"),
          Event.printf ("Pairing password: " ++ secrets.pairingPass ++ "\n")]) s.defers,
        Outcome.ret none) := by
  simp [commandInit, bind_apply, pure_apply, emit, h]

theorem commandInit_error (fl : Flags) (w : World) (s : State) (e : Err)
    (h : w.init = Except.error e) :
    commandInit fl w s =
      (State.mk (s.trace ++ [Event.installerInit]) s.defers, Outcome.ret (some e)) := by
  simp [commandInit, bind_apply, pure_apply, emit, h]

end AppletInstaller

namespace AppletInstaller

theorem call_apply {α : Type} (w : World) (body : Proc α) (s : State) :
    call w body s =
      match body (State.mk s.trace []) with
      | (s1, Outcome.ret a) =>
          match runDefers w s1.defers (State.mk s1.trace []) with
          | (s2, Outcome.ret _) => (State.mk s2.trace s.defers, Outcome.ret a)
          | (s2, Outcome.exit c) => (s2, Outcome.exit c)
      | (s1, Outcome.exit c) => (s1, Outcome.exit c) := rfl

theorem commands_lookup (name : String) :
    commands.lookup name =
      if name = "install" then some commandInstall
      else if name = "status" then some commandStatus
      else if name = "delete" then some commandDelete
      else if name = "init" then some commandInit
      else none := by
  by_cases h1 : name = "install"
  · subst h1; rfl
  by_cases h2 : name = "status"
  · subst h2; rfl
  by_cases h3 : name = "delete"
  · subst h3; rfl
  by_cases h4 : name = "init"
  · subst h4; rfl
  have e1 : (name == "install") = false := by simpa using h1
  have e2 : (name == "status") = false := by simpa using h2
  have e3 : (name == "delete") = false := by simpa using h3
  have e4 : (name == "init") = false := by simpa using h4
  simp [commands, List.lookup, h1, h2, h3, h4, e1, e2, e3, e4]

theorem runMain_no_command (fl : Flags) (w : World) (hc : fl.flagCommand = "") :
    runMain fl w =
      Run.mk (Event.logError "you must specify a command" [] :: usageEvents w) 1 := by
  simp [runMain, call, main, bind_apply, emit, usage_apply, hc]

theorem runMain_establish_error (fl : Flags) (w : World) (e : Err)
    (hc : fl.flagCommand ≠ "") (he : w.establishContext = some e) :
    runMain fl w = Run.mk [Event.establishContext,
      Event.logError "error establishing card context" [("error", e)]] 1 := by
  simp [runMain, call, main, bind_apply, pure_apply, emit, fail_apply, hc, he]

theorem runMain_list_error (fl : Flags) (w : World) (e : Err)
    (hc : fl.flagCommand ≠ "") (he : w.establishContext = none)
    (hl : w.listReaders = Except.error e) :
    runMain fl w = Run.mk [Event.establishContext, Event.listReaders,
      Event.logError "error getting readers" [("error", e)]] 1 := by
  simp [runMain, call, main, bind_apply, pure_apply, emit, deferCall, fail_apply, hc, he, hl]

theorem runMain_reader_count (fl : Flags) (w : World) (readers : List String)
    (hc : fl.flagCommand ≠ "") (he : w.establishContext = none)
    (hl : w.listReaders = Except.ok readers) (hn : readers.length ≠ 1) :
    runMain fl w = Run.mk [Event.establishContext, Event.listReaders,
      Event.logError (if readers.length = 0 then "couldn't find any reader"
        else "too many readers found") []] 1 := by
  rcases readers with _ | ⟨a, _ | ⟨b, rest⟩⟩
  · simp [runMain, call, main, bind_apply, pure_apply, emit, deferCall, fail_apply, hc, he, hl]
  · simp at hn
  · simp [runMain, call, main, bind_apply, pure_apply, emit, deferCall, fail_apply, hc, he, hl]

theorem runMain_connect_error (fl : Flags) (w : World) (r : String) (e : Err)
    (hc : fl.flagCommand ≠ "") (he : w.establishContext = none)
    (hl : w.listReaders = Except.ok [r]) (hk : w.connect r = some e) :
    runMain fl w = Run.mk [Event.establishContext, Event.listReaders,
      Event.logDebug "using reader" [("name", r)],
      Event.logDebug "connecting to card" [("reader", r)],
      Event.connect r,
      Event.logError "error connecting to card" [("error", e)]] 1 := by
  simp [runMain, call, main, bind_apply, pure_apply, emit, deferCall, fail_apply, hc, he, hl, hk]

theorem runMain_status_error (fl : Flags) (w : World) (r : String) (e : Err)
    (hc : fl.flagCommand ≠ "") (he : w.establishContext = none)
    (hl : w.listReaders = Except.ok [r]) (hk : w.connect r = none)
    (hs : w.cardStatus = Except.error e) :
    runMain fl w = Run.mk [Event.establishContext, Event.listReaders,
      Event.logDebug "using reader" [("name", r)],
      Event.logDebug "connecting to card" [("reader", r)],
      Event.connect r, Event.cardStatus,
      Event.logError "error getting card status" [("error", e)]] 1 := by
  simp [runMain, call, main, bind_apply, pure_apply, emit, deferCall, fail_apply, hc, he, hl, hk,
    hs]

theorem runMain_unknown (fl : Flags) (w : World) (r : String) (p : Nat)
    (hc : fl.flagCommand ≠ "") (ha : Acquired w r p)
    (hf : commands.lookup fl.flagCommand = none) :
    runMain fl w = Run.mk (sessionEvents r p ++
      [Event.logError "unknown command" [("command", fl.flagCommand)]]) 1 := by
  obtain ⟨he, hl, hk, hs⟩ := ha
  by_cases h0 : p = ProtocolT0
  · simp [runMain, call, main, bind_apply, pure_apply, emit, deferCall, fail_apply, hc, he, hl,
      hk, hs, hf, sessionEvents, protocolLabel, h0]
  by_cases h1 : p = ProtocolT1
  · subst h1
    simp [runMain, call, main, bind_apply, pure_apply, emit, deferCall, fail_apply, hc, he, hl,
      hk, hs, hf, sessionEvents, protocolLabel, h0]
  · simp [runMain, call, main, bind_apply, pure_apply, emit, deferCall, fail_apply, hc, he, hl,
      hk, hs, hf, sessionEvents, protocolLabel, h0, h1]

theorem main_dispatch (fl : Flags) (w : World) (r : String) (p : Nat) (f : commandFunc)
    (hc : fl.flagCommand ≠ "") (ha : Acquired w r p)
    (hf : commands.lookup fl.flagCommand = some f) :
    main fl w (State.mk [] []) =
      match call w (f fl w)
          (State.mk (sessionEvents r p) [Deferred.disconnectCard, Deferred.releaseContext]) with
      | (s, Outcome.ret (some e)) =>
          (State.mk (s.trace ++ [Event.logError "error executing command"
            [("command", fl.flagCommand), ("error", e)]]) s.defers, Outcome.exit 1)
      | (s, Outcome.ret none) => (s, Outcome.exit 0)
      | (s, Outcome.exit c) => (s, Outcome.exit c) := by
  obtain ⟨he, hl, hk, hs⟩ := ha
  by_cases h0 : p = ProtocolT0
  · simp [main, bind_apply, pure_apply, emit, deferCall, fail_apply, hc, he, hl,
      hk, hs, sessionEvents, protocolLabel, h0, hf]
    rcases call w (f fl w) _ with ⟨s1, (a | c)⟩
    · cases a <;> simp [bind_apply, emit, osExit]
    · simp
  by_cases h1 : p = ProtocolT1
  · subst h1
    simp [main, bind_apply, pure_apply, emit, deferCall, fail_apply, hc, he, hl,
      hk, hs, sessionEvents, protocolLabel, h0, hf]
    rcases call w (f fl w) _ with ⟨s1, (a | c)⟩
    · cases a <;> simp [bind_apply, emit, osExit]
    · simp
  · simp [main, bind_apply, pure_apply, emit, deferCall, fail_apply, hc, he, hl,
      hk, hs, sessionEvents, protocolLabel, h0, h1, hf]
    rcases call w (f fl w) _ with ⟨s1, (a | c)⟩
    · cases a <;> simp [bind_apply, emit, osExit]
    · simp

theorem runMain_dispatch (fl : Flags) (w : World) (r : String) (p : Nat) (f : commandFunc)
    (hc : fl.flagCommand ≠ "") (ha : Acquired w r p)
    (hf : commands.lookup fl.flagCommand = some f) :
    runMain fl w =
      match call w (f fl w)
          (State.mk (sessionEvents r p) [Deferred.disconnectCard, Deferred.releaseContext]) with
      | (s, Outcome.ret (some e)) =>
          Run.mk (s.trace ++ [Event.logError "error executing command"
            [("command", fl.flagCommand), ("error", e)]]) 1
      | (s, Outcome.ret none) => Run.mk s.trace 0
      | (s, Outcome.exit c) => Run.mk s.trace c := by
  rw [runMain, call_apply, main_dispatch fl w r p f hc ha hf]
  rcases call w (f fl w) _ with ⟨s1, (a | c)⟩
  · cases a <;> simp
  · simp

end AppletInstaller

namespace AppletInstaller

theorem lookup_install (fl : Flags) (h : fl.flagCommand = "install") :
    fl.flagCommand ≠ "" ∧ commands.lookup fl.flagCommand = some commandInstall := by
  rw [h]; exact ⟨by decide, rfl⟩

theorem lookup_status (fl : Flags) (h : fl.flagCommand = "status") :
    fl.flagCommand ≠ "" ∧ commands.lookup fl.flagCommand = some commandStatus := by
  rw [h]; exact ⟨by decide, rfl⟩

theorem lookup_delete (fl : Flags) (h : fl.flagCommand = "delete") :
    fl.flagCommand ≠ "" ∧ commands.lookup fl.flagCommand = some commandDelete := by
  rw [h]; exact ⟨by decide, rfl⟩

theorem lookup_init (fl : Flags) (h : fl.flagCommand = "init") :
    fl.flagCommand ≠ "" ∧ commands.lookup fl.flagCommand = some commandInit := by
  rw [h]; exact ⟨by decide, rfl⟩

theorem runMain_install_empty (fl : Flags) (w : World) (r : String) (p : Nat)
    (hcmd : fl.flagCommand = "install") (ha : Acquired w r p) (hp : fl.flagCapFile = "") :
    runMain fl w = Run.mk (sessionEvents r p ++
      Event.logError "you must specify a cap file path with the -f flag\n" [] ::
        usageEvents w) 1 := by
  rw [runMain_dispatch fl w r p commandInstall (lookup_install fl hcmd).1 ha
    (lookup_install fl hcmd).2, call_apply, commandInstall_empty fl w _ hp]

theorem runMain_install_open_error (fl : Flags) (w : World) (r : String) (p : Nat) (e : Err)
    (hcmd : fl.flagCommand = "install") (ha : Acquired w r p) (hp : fl.flagCapFile ≠ "")
    (ho : w.osOpen fl.flagCapFile = some e) :
    runMain fl w = Run.mk (sessionEvents r p ++ [Event.osOpen fl.flagCapFile,
      Event.logError "error opening cap file" [("error", e)]]) 1 := by
  rw [runMain_dispatch fl w r p commandInstall (lookup_install fl hcmd).1 ha
    (lookup_install fl hcmd).2, call_apply, commandInstall_open_error fl w _ e hp ho]

theorem runMain_install_error (fl : Flags) (w : World) (r : String) (p : Nat) (e : Err)
    (hcmd : fl.flagCommand = "install") (ha : Acquired w r p) (hp : fl.flagCapFile ≠ "")
    (ho : w.osOpen fl.flagCapFile = none)
    (hi : w.install fl.flagCapFile fl.flagOverwrite = some e) :
    runMain fl w = Run.mk (sessionEvents r p ++ [Event.osOpen fl.flagCapFile,
      Event.installerInstall fl.flagCapFile fl.flagOverwrite,
      Event.logError "installation error" [("error", e)]]) 1 := by
  rw [runMain_dispatch fl w r p commandInstall (lookup_install fl hcmd).1 ha
    (lookup_install fl hcmd).2, call_apply, commandInstall_error fl w _ e hp ho hi]

theorem runMain_install_ok (fl : Flags) (w : World) (r : String) (p : Nat)
    (hcmd : fl.flagCommand = "install") (ha : Acquired w r p) (hp : fl.flagCapFile ≠ "")
    (ho : w.osOpen fl.flagCapFile = none)
    (hi : w.install fl.flagCapFile fl.flagOverwrite = none) :
    runMain fl w = Run.mk (sessionEvents r p ++ [Event.osOpen fl.flagCapFile,
      Event.installerInstall fl.flagCapFile fl.flagOverwrite,
      Event.printf "applet installed successfully.\n", Event.fileClose]) 0 := by
  rw [runMain_dispatch fl w r p commandInstall (lookup_install fl hcmd).1 ha
    (lookup_install fl hcmd).2, call_apply, commandInstall_ok fl w _ hp ho hi]
  simp [runDefers, runDeferred, bind_apply, pure_apply, emit]

theorem runMain_info_ok (fl : Flags) (w : World) (r : String) (p : Nat) (b : Bool)
    (hcmd : fl.flagCommand = "status") (ha : Acquired w r p) (hi : w.info = Except.ok b) :
    runMain fl w = Run.mk (sessionEvents r p ++ [Event.installerInfo,
      Event.printf (if b then "applet already installed\n" else "applet not installed\n")])
      0 := by
  rw [runMain_dispatch fl w r p commandStatus (lookup_status fl hcmd).1 ha
    (lookup_status fl hcmd).2, call_apply, commandStatus_ok fl w _ b hi]
  simp [runDefers, pure_apply]

theorem runMain_info_error (fl : Flags) (w : World) (r : String) (p : Nat) (e : Err)
    (hcmd : fl.flagCommand = "status") (ha : Acquired w r p) (hi : w.info = Except.error e) :
    runMain fl w = Run.mk (sessionEvents r p ++ [Event.installerInfo,
      Event.logError "error executing command" [("command", "status"), ("error", e)]]) 1 := by
  rw [runMain_dispatch fl w r p commandStatus (lookup_status fl hcmd).1 ha
    (lookup_status fl hcmd).2, call_apply, commandStatus_error fl w _ e hi]
  simp [runDefers, pure_apply, hcmd]

theorem runMain_delete_ok (fl : Flags) (w : World) (r : String) (p : Nat)
    (hcmd : fl.flagCommand = "delete") (ha : Acquired w r p) (hd : w.delete = none) :
    runMain fl w = Run.mk (sessionEvents r p ++ [Event.installerDelete,
      Event.printf "applet deleted\n"]) 0 := by
  rw [runMain_dispatch fl w r p commandDelete (lookup_delete fl hcmd).1 ha
    (lookup_delete fl hcmd).2, call_apply, commandDelete_ok fl w _ hd]
  simp [runDefers, pure_apply]

theorem runMain_delete_error (fl : Flags) (w : World) (r : String) (p : Nat) (e : Err)
    (hcmd : fl.flagCommand = "delete") (ha : Acquired w r p) (hd : w.delete = some e) :
    runMain fl w = Run.mk (sessionEvents r p ++ [Event.installerDelete,
      Event.logError "error executing command" [("command", "delete"), ("error", e)]]) 1 := by
  rw [runMain_dispatch fl w r p commandDelete (lookup_delete fl hcmd).1 ha
    (lookup_delete fl hcmd).2, call_apply, commandDelete_error fl w _ e hd]
  simp [runDefers, pure_apply, hcmd]

theorem runMain_init_ok (fl : Flags) (w : World) (r : String) (p : Nat) (secrets : Secrets)
    (hcmd : fl.flagCommand = "init") (ha : Acquired w r p) (hi : w.init = Except.ok secrets) :
    runMain fl w = Run.mk (sessionEvents r p ++ [Event.installerInit,
      Event.printf ("PIN " ++ secrets.pin ++ "\n"),
      Event.printf ("PUK " ++ secrets.puk ++ "\n"),
      Event.printf ("Pairing password: " ++ secrets.pairingPass ++ "\n")]) 0 := by
  rw [runMain_dispatch fl w r p commandInit (lookup_init fl hcmd).1 ha
    (lookup_init fl hcmd).2, call_apply, commandInit_ok fl w _ secrets hi]
  simp [runDefers, pure_apply]

theorem runMain_init_error (fl : Flags) (w : World) (r : String) (p : Nat) (e : Err)
    (hcmd : fl.flagCommand = "init") (ha : Acquired w r p) (hi : w.init = Except.error e) :
    runMain fl w = Run.mk (sessionEvents r p ++ [Event.installerInit,
      Event.logError "error executing command" [("command", "init"), ("error", e)]]) 1 := by
  rw [runMain_dispatch fl w r p commandInit (lookup_init fl hcmd).1 ha
    (lookup_init fl hcmd).2, call_apply, commandInit_error fl w _ e hi]
  simp [runDefers, pure_apply, hcmd]

end AppletInstaller

namespace AppletInstaller

/-- Exhaustive case analysis on the flags and the world, following the
branches of `main` and of the handlers. -/
theorem world_cases (fl : Flags) (w : World) (P : Prop)
    (no_command : fl.flagCommand = "" → P)
    (establish_error : ∀ e, fl.flagCommand ≠ "" → w.establishContext = some e → P)
    (list_error : ∀ e, fl.flagCommand ≠ "" → w.establishContext = none →
      w.listReaders = Except.error e → P)
    (reader_count : ∀ readers, fl.flagCommand ≠ "" → w.establishContext = none →
      w.listReaders = Except.ok readers → readers.length ≠ 1 → P)
    (connect_error : ∀ r e, fl.flagCommand ≠ "" → w.establishContext = none →
      w.listReaders = Except.ok [r] → w.connect r = some e → P)
    (status_error : ∀ r e, fl.flagCommand ≠ "" → w.establishContext = none →
      w.listReaders = Except.ok [r] → w.connect r = none → w.cardStatus = Except.error e → P)
    (unknown : ∀ r p, fl.flagCommand ≠ "" → Acquired w r p →
      commands.lookup fl.flagCommand = none → P)
    (install_empty : ∀ r p, fl.flagCommand = "install" → Acquired w r p →
      fl.flagCapFile = "" → P)
    (install_open_error : ∀ r p e, fl.flagCommand = "install" → Acquired w r p →
      fl.flagCapFile ≠ "" → w.osOpen fl.flagCapFile = some e → P)
    (install_error : ∀ r p e, fl.flagCommand = "install" → Acquired w r p →
      fl.flagCapFile ≠ "" → w.osOpen fl.flagCapFile = none →
      w.install fl.flagCapFile fl.flagOverwrite = some e → P)
    (install_ok : ∀ r p, fl.flagCommand = "install" → Acquired w r p →
      fl.flagCapFile ≠ "" → w.osOpen fl.flagCapFile = none →
      w.install fl.flagCapFile fl.flagOverwrite = none → P)
    (info_ok : ∀ r p b, fl.flagCommand = "status" → Acquired w r p →
      w.info = Except.ok b → P)
    (info_error : ∀ r p e, fl.flagCommand = "status" → Acquired w r p →
      w.info = Except.error e → P)
    (delete_ok : ∀ r p, fl.flagCommand = "delete" → Acquired w r p → w.delete = none → P)
    (delete_error : ∀ r p e, fl.flagCommand = "delete" → Acquired w r p →
      w.delete = some e → P)
    (init_ok : ∀ r p secrets, fl.flagCommand = "init" → Acquired w r p →
      w.init = Except.ok secrets → P)
    (init_error : ∀ r p e, fl.flagCommand = "init" → Acquired w r p →
      w.init = Except.error e → P) : P := by
  by_cases hc : fl.flagCommand = ""
  · exact no_command hc
  cases he : w.establishContext with
  | some e => exact establish_error e hc he
  | none =>
  cases hl : w.listReaders with
  | error e => exact list_error e hc he hl
  | ok readers =>
  by_cases hn : readers.length = 1
  swap
  · exact reader_count readers hc he hl hn
  obtain ⟨r, rfl⟩ := List.length_eq_one.mp hn
  cases hk : w.connect r with
  | some e => exact connect_error r e hc he hl hk
  | none =>
  cases hs : w.cardStatus with
  | error e => exact status_error r e hc he hl hk hs
  | ok p =>
  have ha : Acquired w r p := ⟨he, hl, hk, hs⟩
  by_cases h1 : fl.flagCommand = "install"
  · by_cases hp : fl.flagCapFile = ""
    · exact install_empty r p h1 ha hp
    cases ho : w.osOpen fl.flagCapFile with
    | some e => exact install_open_error r p e h1 ha hp ho
    | none =>
    cases hi : w.install fl.flagCapFile fl.flagOverwrite with
    | some e => exact install_error r p e h1 ha hp ho hi
    | none => exact install_ok r p h1 ha hp ho hi
  by_cases h2 : fl.flagCommand = "status"
  · cases hi : w.info with
    | error e => exact info_error r p e h2 ha hi
    | ok b => exact info_ok r p b h2 ha hi
  by_cases h3 : fl.flagCommand = "delete"
  · cases hd : w.delete with
    | some e => exact delete_error r p e h3 ha hd
    | none => exact delete_ok r p h3 ha hd
  by_cases h4 : fl.flagCommand = "init"
  · cases hi : w.init with
    | error e => exact init_error r p e h4 ha hi
    | ok secrets => exact init_ok r p secrets h4 ha hi
  · exact unknown r p hc ha (by rw [commands_lookup]; simp [h1, h2, h3, h4])

theorem usageEvents_no_release (w : World) :
    ∀ e ∈ usageEvents w, e.isRelease = false := by
  intro e he
  simp only [usageEvents, List.mem_cons, List.mem_append, List.mem_map, List.mem_singleton,
    List.mem_nil_iff, or_false] at he
  rcases he with rfl | ⟨n, _, rfl⟩ | rfl | rfl <;> rfl

theorem sessionEvents_no_release (r : String) (p : Nat) :
    ∀ e ∈ sessionEvents r p, e.isRelease = false := by
  simp [sessionEvents, Event.isRelease]

theorem trace_no_release (fl : Flags) (w : World) :
    ∀ e ∈ (runMain fl w).trace, e.isRelease = false := by
  apply world_cases fl w
  · intro h; rw [runMain_no_command fl w h]
    intro e he
    rcases List.mem_cons.mp he with rfl | h2
    · rfl
    · exact usageEvents_no_release w e h2
  · intro e hc he; rw [runMain_establish_error fl w e hc he]; simp [Event.isRelease]
  · intro e hc he hl; rw [runMain_list_error fl w e hc he hl]; simp [Event.isRelease]
  · intro rs hc he hl hn; rw [runMain_reader_count fl w rs hc he hl hn]; simp [Event.isRelease]
  · intro r e hc he hl hk; rw [runMain_connect_error fl w r e hc he hl hk]
    simp [Event.isRelease]
  · intro r e hc he hl hk hs; rw [runMain_status_error fl w r e hc he hl hk hs]
    simp [Event.isRelease]
  · intro r p hc ha hf; rw [runMain_unknown fl w r p hc ha hf]
    simp [sessionEvents, Event.isRelease]
  · intro r p h ha hp; rw [runMain_install_empty fl w r p h ha hp]
    intro e he
    rcases List.mem_append.mp he with h1 | h2
    · exact sessionEvents_no_release r p e h1
    · rcases List.mem_cons.mp h2 with rfl | h3
      · rfl
      · exact usageEvents_no_release w e h3
  · intro r p e h ha hp ho; rw [runMain_install_open_error fl w r p e h ha hp ho]
    simp [sessionEvents, Event.isRelease]
  · intro r p e h ha hp ho hi; rw [runMain_install_error fl w r p e h ha hp ho hi]
    simp [sessionEvents, Event.isRelease]
  · intro r p h ha hp ho hi; rw [runMain_install_ok fl w r p h ha hp ho hi]
    simp [sessionEvents, Event.isRelease]
  · intro r p b h ha hi; rw [runMain_info_ok fl w r p b h ha hi]
    simp [sessionEvents, Event.isRelease]
  · intro r p e h ha hi; rw [runMain_info_error fl w r p e h ha hi]
    simp [sessionEvents, Event.isRelease]
  · intro r p h ha hd; rw [runMain_delete_ok fl w r p h ha hd]
    simp [sessionEvents, Event.isRelease]
  · intro r p e h ha hd; rw [runMain_delete_error fl w r p e h ha hd]
    simp [sessionEvents, Event.isRelease]
  · intro r p s h ha hi; rw [runMain_init_ok fl w r p s h ha hi]
    simp [sessionEvents, Event.isRelease]
  · intro r p e h ha hi; rw [runMain_init_error fl w r p e h ha hi]
    simp [sessionEvents, Event.isRelease]

end AppletInstaller

namespace AppletInstaller

theorem not_succeeds_of_not_acquired (fl : Flags) (w : World)
    (h : ∀ r p, ¬ Acquired w r p) : ¬ HandlerSucceeds fl w := by
  rintro ⟨_, _, ⟨r, p, ha⟩, _⟩
  exact h r p ha

theorem not_succeeds_of_lookup_none (fl : Flags) (w : World)
    (h : commands.lookup fl.flagCommand = none) : ¬ HandlerSucceeds fl w := by
  rintro ⟨f, hf, _, _⟩
  rw [h] at hf
  cases hf

theorem not_succeeds_of_handler (fl : Flags) (w : World) (f : commandFunc) (s : State)
    (hf : commands.lookup fl.flagCommand = some f)
    (h : (f fl w s).2 ≠ Outcome.ret none) : ¬ HandlerSucceeds fl w := by
  rintro ⟨g, hg, _, hret⟩
  rw [hf] at hg
  cases hg
  exact h (hret s)

/-- The exit code is 0 when the handler of a registered command is reached
and returns nil, and 1 otherwise. -/
theorem exitCode_cases (fl : Flags) (w : World) :
    ((runMain fl w).exitCode = 0 ∧ HandlerSucceeds fl w) ∨
      ((runMain fl w).exitCode = 1 ∧ ¬ HandlerSucceeds fl w) := by
  apply world_cases fl w
  · intro h
    refine Or.inr ⟨by rw [runMain_no_command fl w h], ?_⟩
    exact not_succeeds_of_lookup_none fl w (by rw [h]; rfl)
  · intro e hc he
    refine Or.inr ⟨by rw [runMain_establish_error fl w e hc he], ?_⟩
    refine not_succeeds_of_not_acquired fl w ?_
    rintro r p ⟨h1, _⟩
    rw [he] at h1
    cases h1
  · intro e hc he hl
    refine Or.inr ⟨by rw [runMain_list_error fl w e hc he hl], ?_⟩
    refine not_succeeds_of_not_acquired fl w ?_
    rintro r p ⟨_, h2, _⟩
    rw [hl] at h2
    cases h2
  · intro rs hc he hl hn
    refine Or.inr ⟨by rw [runMain_reader_count fl w rs hc he hl hn], ?_⟩
    refine not_succeeds_of_not_acquired fl w ?_
    rintro r p ⟨_, h2, _⟩
    rw [hl] at h2
    cases h2
    exact hn rfl
  · intro r e hc he hl hk
    refine Or.inr ⟨by rw [runMain_connect_error fl w r e hc he hl hk], ?_⟩
    refine not_succeeds_of_not_acquired fl w ?_
    rintro r2 p ⟨_, h2, h3, _⟩
    rw [hl] at h2
    cases h2
    rw [hk] at h3
    cases h3
  · intro r e hc he hl hk hs
    refine Or.inr ⟨by rw [runMain_status_error fl w r e hc he hl hk hs], ?_⟩
    refine not_succeeds_of_not_acquired fl w ?_
    rintro r2 p ⟨_, _, _, h4⟩
    rw [hs] at h4
    cases h4
  · intro r p hc ha hf
    exact Or.inr ⟨by rw [runMain_unknown fl w r p hc ha hf],
      not_succeeds_of_lookup_none fl w hf⟩
  · intro r p h ha hp
    refine Or.inr ⟨by rw [runMain_install_empty fl w r p h ha hp], ?_⟩
    refine not_succeeds_of_handler fl w commandInstall (State.mk [] []) (lookup_install fl h).2 ?_
    rw [commandInstall_empty fl w _ hp]
    simp
  · intro r p e h ha hp ho
    refine Or.inr ⟨by rw [runMain_install_open_error fl w r p e h ha hp ho], ?_⟩
    refine not_succeeds_of_handler fl w commandInstall (State.mk [] []) (lookup_install fl h).2 ?_
    rw [commandInstall_open_error fl w _ e hp ho]
    simp
  · intro r p e h ha hp ho hi
    refine Or.inr ⟨by rw [runMain_install_error fl w r p e h ha hp ho hi], ?_⟩
    refine not_succeeds_of_handler fl w commandInstall (State.mk [] []) (lookup_install fl h).2 ?_
    rw [commandInstall_error fl w _ e hp ho hi]
    simp
  · intro r p h ha hp ho hi
    refine Or.inl ⟨by rw [runMain_install_ok fl w r p h ha hp ho hi], ?_⟩
    exact ⟨commandInstall, (lookup_install fl h).2, ⟨r, p, ha⟩,
      fun s => by rw [commandInstall_ok fl w s hp ho hi]⟩
  · intro r p b h ha hi
    refine Or.inl ⟨by rw [runMain_info_ok fl w r p b h ha hi], ?_⟩
    exact ⟨commandStatus, (lookup_status fl h).2, ⟨r, p, ha⟩,
      fun s => by rw [commandStatus_ok fl w s b hi]⟩
  · intro r p e h ha hi
    refine Or.inr ⟨by rw [runMain_info_error fl w r p e h ha hi], ?_⟩
    refine not_succeeds_of_handler fl w commandStatus (State.mk [] []) (lookup_status fl h).2 ?_
    rw [commandStatus_error fl w _ e hi]
    simp
  · intro r p h ha hd
    refine Or.inl ⟨by rw [runMain_delete_ok fl w r p h ha hd], ?_⟩
    exact ⟨commandDelete, (lookup_delete fl h).2, ⟨r, p, ha⟩,
      fun s => by rw [commandDelete_ok fl w s hd]⟩
  · intro r p e h ha hd
    refine Or.inr ⟨by rw [runMain_delete_error fl w r p e h ha hd], ?_⟩
    refine not_succeeds_of_handler fl w commandDelete (State.mk [] []) (lookup_delete fl h).2 ?_
    rw [commandDelete_error fl w _ e hd]
    simp
  · intro r p s h ha hi
    refine Or.inl ⟨by rw [runMain_init_ok fl w r p s h ha hi], ?_⟩
    exact ⟨commandInit, (lookup_init fl h).2, ⟨r, p, ha⟩,
      fun st => by rw [commandInit_ok fl w st s hi]⟩
  · intro r p e h ha hi
    refine Or.inr ⟨by rw [runMain_init_error fl w r p e h ha hi], ?_⟩
    refine not_succeeds_of_handler fl w commandInit (State.mk [] []) (lookup_init fl h).2 ?_
    rw [commandInit_error fl w _ e hi]
    simp

/-- The answers of `card.Disconnect` and `ctx.Release` do not influence the run. -/
theorem runMain_withRelease (fl : Flags) (w : World) (d rel : Option Err) :
    runMain fl (withRelease w d rel) = runMain fl w := by
  apply world_cases fl w
  · intro h
    rw [runMain_no_command fl w h, runMain_no_command fl (withRelease w d rel) h]; rfl
  · intro e hc he
    rw [runMain_establish_error fl w e hc he,
      runMain_establish_error fl (withRelease w d rel) e hc he]
  · intro e hc he hl
    rw [runMain_list_error fl w e hc he hl,
      runMain_list_error fl (withRelease w d rel) e hc he hl]
  · intro rs hc he hl hn
    rw [runMain_reader_count fl w rs hc he hl hn,
      runMain_reader_count fl (withRelease w d rel) rs hc he hl hn]
  · intro r e hc he hl hk
    rw [runMain_connect_error fl w r e hc he hl hk,
      runMain_connect_error fl (withRelease w d rel) r e hc he hl hk]
  · intro r e hc he hl hk hs
    rw [runMain_status_error fl w r e hc he hl hk hs,
      runMain_status_error fl (withRelease w d rel) r e hc he hl hk hs]
  · intro r p hc ha hf
    rw [runMain_unknown fl w r p hc ha hf, runMain_unknown fl (withRelease w d rel) r p hc ha hf]
  · intro r p h ha hp
    rw [runMain_install_empty fl w r p h ha hp,
      runMain_install_empty fl (withRelease w d rel) r p h ha hp]; rfl
  · intro r p e h ha hp ho
    rw [runMain_install_open_error fl w r p e h ha hp ho,
      runMain_install_open_error fl (withRelease w d rel) r p e h ha hp ho]
  · intro r p e h ha hp ho hi
    rw [runMain_install_error fl w r p e h ha hp ho hi,
      runMain_install_error fl (withRelease w d rel) r p e h ha hp ho hi]
  · intro r p h ha hp ho hi
    rw [runMain_install_ok fl w r p h ha hp ho hi,
      runMain_install_ok fl (withRelease w d rel) r p h ha hp ho hi]
  · intro r p b h ha hi
    rw [runMain_info_ok fl w r p b h ha hi, runMain_info_ok fl (withRelease w d rel) r p b h ha hi]
  · intro r p e h ha hi
    rw [runMain_info_error fl w r p e h ha hi,
      runMain_info_error fl (withRelease w d rel) r p e h ha hi]
  · intro r p h ha hd
    rw [runMain_delete_ok fl w r p h ha hd, runMain_delete_ok fl (withRelease w d rel) r p h ha hd]
  · intro r p e h ha hd
    rw [runMain_delete_error fl w r p e h ha hd,
      runMain_delete_error fl (withRelease w d rel) r p e h ha hd]
  · intro r p s h ha hi
    rw [runMain_init_ok fl w r p s h ha hi, runMain_init_ok fl (withRelease w d rel) r p s h ha hi]
  · intro r p e h ha hi
    rw [runMain_init_error fl w r p e h ha hi,
      runMain_init_error fl (withRelease w d rel) r p e h ha hi]

end AppletInstaller

namespace AppletInstaller

/-- Case analysis on the command and the Installer's answers once the
acquisition steps have succeeded. -/
theorem acquired_cases (fl : Flags) (w : World) (r : String) (p : Nat)
    (hc : fl.flagCommand ≠ "") (ha : Acquired w r p) (P : Prop)
    (unknown : commands.lookup fl.flagCommand = none → P)
    (install_empty : fl.flagCommand = "install" → fl.flagCapFile = "" → P)
    (install_open_error : ∀ e, fl.flagCommand = "install" → fl.flagCapFile ≠ "" →
      w.osOpen fl.flagCapFile = some e → P)
    (install_error : ∀ e, fl.flagCommand = "install" → fl.flagCapFile ≠ "" →
      w.osOpen fl.flagCapFile = none → w.install fl.flagCapFile fl.flagOverwrite = some e → P)
    (install_ok : fl.flagCommand = "install" → fl.flagCapFile ≠ "" →
      w.osOpen fl.flagCapFile = none → w.install fl.flagCapFile fl.flagOverwrite = none → P)
    (info_ok : ∀ b, fl.flagCommand = "status" → w.info = Except.ok b → P)
    (info_error : ∀ e, fl.flagCommand = "status" → w.info = Except.error e → P)
    (delete_ok : fl.flagCommand = "delete" → w.delete = none → P)
    (delete_error : ∀ e, fl.flagCommand = "delete" → w.delete = some e → P)
    (init_ok : ∀ secrets, fl.flagCommand = "init" → w.init = Except.ok secrets → P)
    (init_error : ∀ e, fl.flagCommand = "init" → w.init = Except.error e → P) : P := by
  obtain ⟨he, hl, hk, hs⟩ := ha
  apply world_cases fl w
  · intro h; exact absurd h hc
  · intro e _ h; rw [he] at h; cases h
  · intro e _ _ h; rw [hl] at h; cases h
  · intro rs _ _ h hn; rw [hl] at h; cases h; exact absurd rfl hn
  · intro r2 e _ _ h h2; rw [hl] at h; cases h; rw [hk] at h2; cases h2
  · intro r2 e _ _ _ _ h; rw [hs] at h; cases h
  · intro _ _ _ _ h; exact unknown h
  · intro _ _ h _ hp; exact install_empty h hp
  · intro _ _ e h _ hp ho; exact install_open_error e h hp ho
  · intro _ _ e h _ hp ho hi; exact install_error e h hp ho hi
  · intro _ _ h _ hp ho hi; exact install_ok h hp ho hi
  · intro _ _ b h _ hi; exact info_ok b h hi
  · intro _ _ e h _ hi; exact info_error e h hi
  · intro _ _ h _ hd; exact delete_ok h hd
  · intro _ _ e h _ hd; exact delete_error e h hd
  · intro _ _ s h _ hi; exact init_ok s h hi
  · intro _ _ e h _ hi; exact init_error e h hi

/-- Once the acquisition steps have succeeded, the trace of the run starts
with the session events, the last of which is the creation of the Installer. -/
theorem acquired_trace (fl : Flags) (w : World) (r : String) (p : Nat)
    (hc : fl.flagCommand ≠ "") (ha : Acquired w r p) :
    ∃ rest, (runMain fl w).trace = sessionEvents r p ++ rest := by
  apply acquired_cases fl w r p hc ha
  · intro hf; rw [runMain_unknown fl w r p hc ha hf]; exact ⟨_, rfl⟩
  · intro h hp; rw [runMain_install_empty fl w r p h ha hp]; exact ⟨_, rfl⟩
  · intro e h hp ho; rw [runMain_install_open_error fl w r p e h ha hp ho]; exact ⟨_, rfl⟩
  · intro e h hp ho hi; rw [runMain_install_error fl w r p e h ha hp ho hi]; exact ⟨_, rfl⟩
  · intro h hp ho hi; rw [runMain_install_ok fl w r p h ha hp ho hi]; exact ⟨_, rfl⟩
  · intro b h hi; rw [runMain_info_ok fl w r p b h ha hi]; exact ⟨_, rfl⟩
  · intro e h hi; rw [runMain_info_error fl w r p e h ha hi]; exact ⟨_, rfl⟩
  · intro h hd; rw [runMain_delete_ok fl w r p h ha hd]; exact ⟨_, rfl⟩
  · intro e h hd; rw [runMain_delete_error fl w r p e h ha hd]; exact ⟨_, rfl⟩
  · intro s h hi; rw [runMain_init_ok fl w r p s h ha hi]; exact ⟨_, rfl⟩
  · intro e h hi; rw [runMain_init_error fl w r p e h ha hi]; exact ⟨_, rfl⟩

theorem usageEvents_no_file_or_installer (w : World) :
    ∀ e ∈ usageEvents w, (∀ path, e ≠ Event.osOpen path) ∧ e.isInstallerOp = false := by
  intro e he
  simp only [usageEvents, List.mem_cons, List.mem_append, List.mem_map, List.mem_singleton,
    List.mem_nil_iff, or_false] at he
  rcases he with rfl | ⟨n, _, rfl⟩ | rfl | rfl <;> simp [Event.isInstallerOp]

theorem sessionEvents_no_file_or_installer (r : String) (p : Nat) :
    ∀ e ∈ sessionEvents r p, (∀ path, e ≠ Event.osOpen path) ∧ e.isInstallerOp = false := by
  simp [sessionEvents, Event.isInstallerOp]

theorem stdout_sessionEvents (r : String) (p : Nat) (es : List Event) :
    stdout (sessionEvents r p ++ es) = stdout es := by
  simp [sessionEvents, stdout]

/-! ## The claims -/

/-- C1 (the code departs from the claim): every path of `main` ends in `os.Exit`,
so the deferred `card.Disconnect(ResetCard)` and `ctx.Release()` never run.  In
the run `delete` with `Installer.Delete` reporting "locked" and in the
successful run `status` the trace is the one displayed, and in every run the
trace contains no `Disconnect` and no `Release`, where the claim asks for
exactly one of each. -/
theorem deferred_release_never_runs :
    runMain (Flags.mk "delete" "" false) worldLocked =
      Run.mk [Event.establishContext, Event.listReaders,
        Event.logDebug "using reader" [("name", "r1")],
        Event.logDebug "connecting to card" [("reader", "r1")],
        Event.connect "r1", Event.cardStatus,
        Event.logDebug "card protocol" [("T", "1")],
        Event.newInstaller, Event.installerDelete,
        Event.logError "error executing command" [("command", "delete"), ("error", "locked")]]
        1 ∧
    runMain (Flags.mk "status" "" false) worldOk =
      Run.mk [Event.establishContext, Event.listReaders,
        Event.logDebug "using reader" [("name", "r1")],
        Event.logDebug "connecting to card" [("reader", "r1")],
        Event.connect "r1", Event.cardStatus,
        Event.logDebug "card protocol" [("T", "1")],
        Event.newInstaller, Event.installerInfo,
        Event.printf "applet already installed\n"] 0 ∧
    ∀ (fl : Flags) (w : World),
      (runMain fl w).trace.count Event.disconnect = 0 ∧
        (runMain fl w).trace.count Event.release = 0 := by
  refine ⟨by decide, by decide, ?_⟩
  intro fl w
  constructor
  · refine List.count_eq_zero.mpr (fun h => ?_)
    have := trace_no_release fl w _ h
    simp [Event.isRelease] at this
  · refine List.count_eq_zero.mpr (fun h => ?_)
    have := trace_no_release fl w _ h
    simp [Event.isRelease] at this

/-- C2: when the command is not empty, the context is established and
`ListReaders` returns a list whose length is not 1, the run logs
"couldn't find any reader" (empty list) or "too many readers found" (two or
more) and exits with code 1; `ctx.Connect` is not called and no Installer
operation is called. -/
theorem reader_count_not_one_fails (fl : Flags) (w : World) (readers : List String)
    (hc : fl.flagCommand ≠ "") (he : w.establishContext = none)
    (hl : w.listReaders = Except.ok readers) (hn : readers.length ≠ 1) :
    (runMain fl w).exitCode = 1 ∧
    (runMain fl w).trace = [Event.establishContext, Event.listReaders,
      Event.logError (if readers.length = 0 then "couldn't find any reader"
        else "too many readers found") []] ∧
    (∀ r, Event.connect r ∉ (runMain fl w).trace) ∧
    (∀ e ∈ (runMain fl w).trace, e.isInstallerOp = false) := by
  rw [runMain_reader_count fl w readers hc he hl hn]
  simp [Event.isInstallerOp]

/-- Instance of C2: the command `status` on a session listing two readers. -/
theorem reader_count_not_one_fails_witness :
    (runMain (Flags.mk "status" "" false) worldTwoReaders).exitCode = 1 ∧
    (runMain (Flags.mk "status" "" false) worldTwoReaders).trace =
      [Event.establishContext, Event.listReaders,
        Event.logError (if ["r1", "r2"].length = 0 then "couldn't find any reader"
          else "too many readers found") []] ∧
    (∀ r, Event.connect r ∉ (runMain (Flags.mk "status" "" false) worldTwoReaders).trace) ∧
    (∀ e ∈ (runMain (Flags.mk "status" "" false) worldTwoReaders).trace,
      e.isInstallerOp = false) :=
  reader_count_not_one_fails (Flags.mk "status" "" false) worldTwoReaders ["r1", "r2"]
    (by decide) rfl rfl (by decide)

theorem runDefers_ret (w : World) (ds : List Deferred) (s : State) :
    (runDefers w ds s).2 = Outcome.ret () := by
  induction ds generalizing s with
  | nil => rfl
  | cons d ds ih =>
    cases d
    · cases h : w.release <;>
        simp [runDefers, runDeferred, bind_apply, pure_apply, emit, h, ih]
    · cases h : w.disconnect <;>
        simp [runDefers, runDeferred, bind_apply, pure_apply, emit, h, ih]
    · simp [runDefers, runDeferred, bind_apply, emit, ih]

/-- A function call ends the way its body ends: the deferred calls never exit. -/
theorem call_outcome {α : Type} (w : World) (body : Proc α) (s : State) :
    (call w body s).2 = (body (State.mk s.trace [])).2 := by
  rw [call_apply]
  rcases hb : body (State.mk s.trace []) with ⟨s1, (a | c)⟩
  · have h := runDefers_ret w s1.defers (State.mk s1.trace [])
    rcases hr : runDefers w s1.defers (State.mk s1.trace []) with ⟨s2, (u | c)⟩
    · simp [hr]
    · rw [hr] at h; cases h
  · rfl

/-- The exit code is 0 when the run reaches the handler of a registered command
whose Installer operation succeeds, and 1 otherwise. -/
theorem exitCode_explicit (fl : Flags) (w : World) :
    ((runMain fl w).exitCode = 0 ∧ CommandSucceeds fl w) ∨
      ((runMain fl w).exitCode = 1 ∧ ¬ CommandSucceeds fl w) := by
  apply world_cases fl w
  · intro h
    refine Or.inr ⟨by rw [runMain_no_command fl w h], ?_⟩
    rintro ⟨r, p, ha, hd⟩
    simp [h] at hd
  · intro e hc he
    refine Or.inr ⟨by rw [runMain_establish_error fl w e hc he], ?_⟩
    rintro ⟨r, p, ⟨h1, _⟩, _⟩
    rw [he] at h1
    cases h1
  · intro e hc he hl
    refine Or.inr ⟨by rw [runMain_list_error fl w e hc he hl], ?_⟩
    rintro ⟨r, p, ⟨_, h2, _⟩, _⟩
    rw [hl] at h2
    cases h2
  · intro rs hc he hl hn
    refine Or.inr ⟨by rw [runMain_reader_count fl w rs hc he hl hn], ?_⟩
    rintro ⟨r, p, ⟨_, h2, _⟩, _⟩
    rw [hl] at h2
    cases h2
    exact hn rfl
  · intro r e hc he hl hk
    refine Or.inr ⟨by rw [runMain_connect_error fl w r e hc he hl hk], ?_⟩
    rintro ⟨r2, p, ⟨_, h2, h3, _⟩, _⟩
    rw [hl] at h2
    cases h2
    rw [hk] at h3
    cases h3
  · intro r e hc he hl hk hs
    refine Or.inr ⟨by rw [runMain_status_error fl w r e hc he hl hk hs], ?_⟩
    rintro ⟨r2, p, ⟨_, _, _, h4⟩, _⟩
    rw [hs] at h4
    cases h4
  · intro r p hc ha hf
    refine Or.inr ⟨by rw [runMain_unknown fl w r p hc ha hf], ?_⟩
    rintro ⟨r2, p2, _, hd⟩
    rcases hd with h | h | h | h
    · rw [(lookup_install fl h.1).2] at hf; cases hf
    · rw [(lookup_status fl h.1).2] at hf; cases hf
    · rw [(lookup_delete fl h.1).2] at hf; cases hf
    · rw [(lookup_init fl h.1).2] at hf; cases hf
  · intro r p h ha hp
    refine Or.inr ⟨by rw [runMain_install_empty fl w r p h ha hp], ?_⟩
    rintro ⟨r2, p2, _, hd⟩
    simp [h, hp] at hd
  · intro r p e h ha hp ho
    refine Or.inr ⟨by rw [runMain_install_open_error fl w r p e h ha hp ho], ?_⟩
    rintro ⟨r2, p2, _, hd⟩
    simp [h, ho] at hd
  · intro r p e h ha hp ho hi
    refine Or.inr ⟨by rw [runMain_install_error fl w r p e h ha hp ho hi], ?_⟩
    rintro ⟨r2, p2, _, hd⟩
    simp [h, hi] at hd
  · intro r p h ha hp ho hi
    exact Or.inl ⟨by rw [runMain_install_ok fl w r p h ha hp ho hi],
      r, p, ha, Or.inl ⟨h, hp, ho, hi⟩⟩
  · intro r p b h ha hi
    exact Or.inl ⟨by rw [runMain_info_ok fl w r p b h ha hi],
      r, p, ha, Or.inr (Or.inl ⟨h, b, hi⟩)⟩
  · intro r p e h ha hi
    refine Or.inr ⟨by rw [runMain_info_error fl w r p e h ha hi], ?_⟩
    rintro ⟨r2, p2, _, hd⟩
    simp [h, hi] at hd
  · intro r p h ha hd
    exact Or.inl ⟨by rw [runMain_delete_ok fl w r p h ha hd],
      r, p, ha, Or.inr (Or.inr (Or.inl ⟨h, hd⟩))⟩
  · intro r p e h ha hd
    refine Or.inr ⟨by rw [runMain_delete_error fl w r p e h ha hd], ?_⟩
    rintro ⟨r2, p2, _, hd2⟩
    simp [h, hd] at hd2
  · intro r p s h ha hi
    exact Or.inl ⟨by rw [runMain_init_ok fl w r p s h ha hi],
      r, p, ha, Or.inr (Or.inr (Or.inr ⟨h, s, hi⟩))⟩
  · intro r p e h ha hi
    refine Or.inr ⟨by rw [runMain_init_error fl w r p e h ha hi], ?_⟩
    rintro ⟨r2, p2, _, hd⟩
    simp [h, hi] at hd

theorem exitCode_one_of_not (fl : Flags) (w : World) (h : ¬ CommandSucceeds fl w) :
    (runMain fl w).exitCode = 1 := by
  rcases exitCode_explicit fl w with h2 | h2
  · exact absurd h2.2 h
  · exact h2.1

/-- C3: the exit code of a run is 0 or 1.  It is 0 exactly when every
acquisition step succeeds, the command is one of `install`, `status`, `delete`,
`init`, and its handler runs to completion with success: `install` with a
non-empty cap-file path that opens and installs, `status` with an answer from
`Info`, `delete` succeeding, `init` yielding secrets; equivalently, when the
handler found in the registry is reached and returns nil.  It is 1 for a
missing command, for each acquisition failure, for an unknown command, for
`install` without a cap file and for each Installer (or `os.Open`) failure.
The registry holds exactly the four names.  The run, and so its exit code, is
the same whatever `card.Disconnect` and `ctx.Release` would answer; and no
function call ends differently because of these answers, since the deferred
closures only log. -/
theorem exit_code_zero_iff (fl : Flags) (w : World) :
    ((runMain fl w).exitCode = 0 ∨ (runMain fl w).exitCode = 1) ∧
    ((runMain fl w).exitCode = 0 ↔
      ∃ r p, Acquired w r p ∧
        ((fl.flagCommand = "install" ∧ fl.flagCapFile ≠ "" ∧
            w.osOpen fl.flagCapFile = none ∧
            w.install fl.flagCapFile fl.flagOverwrite = none) ∨
          (fl.flagCommand = "status" ∧ ∃ b, w.info = Except.ok b) ∨
          (fl.flagCommand = "delete" ∧ w.delete = none) ∨
          (fl.flagCommand = "init" ∧ ∃ secrets, w.init = Except.ok secrets))) ∧
    ((runMain fl w).exitCode = 0 ↔
      ∃ f, commands.lookup fl.flagCommand = some f ∧ (∃ r p, Acquired w r p) ∧
        ReturnsNil f fl w) ∧
    (∀ name, (commands.lookup name).isSome = true ↔
      name = "install" ∨ name = "status" ∨ name = "delete" ∨ name = "init") ∧
    (fl.flagCommand = "" → (runMain fl w).exitCode = 1) ∧
    ((∃ e, w.establishContext = some e) → (runMain fl w).exitCode = 1) ∧
    ((∃ e, w.listReaders = Except.error e) → (runMain fl w).exitCode = 1) ∧
    (∀ readers, w.listReaders = Except.ok readers → readers.length ≠ 1 →
      (runMain fl w).exitCode = 1) ∧
    (∀ r e, w.listReaders = Except.ok [r] → w.connect r = some e →
      (runMain fl w).exitCode = 1) ∧
    ((∃ e, w.cardStatus = Except.error e) → (runMain fl w).exitCode = 1) ∧
    (fl.flagCommand ≠ "install" → fl.flagCommand ≠ "status" → fl.flagCommand ≠ "delete" →
      fl.flagCommand ≠ "init" → (runMain fl w).exitCode = 1) ∧
    (fl.flagCommand = "install" → fl.flagCapFile = "" → (runMain fl w).exitCode = 1) ∧
    (fl.flagCommand = "install" → (∃ e, w.osOpen fl.flagCapFile = some e) →
      (runMain fl w).exitCode = 1) ∧
    (fl.flagCommand = "install" →
      (∃ e, w.install fl.flagCapFile fl.flagOverwrite = some e) →
      (runMain fl w).exitCode = 1) ∧
    (fl.flagCommand = "status" → (∃ e, w.info = Except.error e) →
      (runMain fl w).exitCode = 1) ∧
    (fl.flagCommand = "delete" → (∃ e, w.delete = some e) → (runMain fl w).exitCode = 1) ∧
    (fl.flagCommand = "init" → (∃ e, w.init = Except.error e) →
      (runMain fl w).exitCode = 1) ∧
    (∀ disconnect release : Option Err,
      runMain fl (withRelease w disconnect release) = runMain fl w ∧
      (runMain fl (withRelease w disconnect release)).exitCode = (runMain fl w).exitCode) ∧
    (∀ (body : Proc Unit) (s : State) (disconnect release : Option Err),
      (call (withRelease w disconnect release) body s).2 = (call w body s).2) := by
  refine ⟨?_, ?_, ?_, ?_, ?_, ?_, ?_, ?_, ?_, ?_, ?_, ?_, ?_, ?_, ?_, ?_, ?_, ?_, ?_⟩
  · rcases exitCode_cases fl w with h | h
    · exact Or.inl h.1
    · exact Or.inr h.1
  · rcases exitCode_explicit fl w with h | h
    · exact ⟨fun _ => h.2, fun _ => h.1⟩
    · constructor
      · intro h0; rw [h.1] at h0; cases h0
      · intro hs; exact absurd hs h.2
  · rcases exitCode_cases fl w with h | h
    · exact ⟨fun _ => h.2, fun _ => h.1⟩
    · constructor
      · intro h0; rw [h.1] at h0; cases h0
      · intro hs; exact absurd hs h.2
  · intro name
    rw [commands_lookup]
    split_ifs with h1 h2 h3 h4 <;> simp [*]
  · intro h
    refine exitCode_one_of_not fl w ?_
    rintro ⟨r, p, _, hd⟩
    simp [h] at hd
  · rintro ⟨e, he⟩
    refine exitCode_one_of_not fl w ?_
    rintro ⟨r, p, ⟨h1, _⟩, _⟩
    rw [he] at h1
    cases h1
  · rintro ⟨e, hl⟩
    refine exitCode_one_of_not fl w ?_
    rintro ⟨r, p, ⟨_, h2, _⟩, _⟩
    rw [hl] at h2
    cases h2
  · intro readers hl hn
    refine exitCode_one_of_not fl w ?_
    rintro ⟨r, p, ⟨_, h2, _⟩, _⟩
    rw [hl] at h2
    cases h2
    exact hn rfl
  · intro r e hl hk
    refine exitCode_one_of_not fl w ?_
    rintro ⟨r2, p, ⟨_, h2, h3, _⟩, _⟩
    rw [hl] at h2
    cases h2
    rw [hk] at h3
    cases h3
  · rintro ⟨e, hs⟩
    refine exitCode_one_of_not fl w ?_
    rintro ⟨r, p, ⟨_, _, _, h4⟩, _⟩
    rw [hs] at h4
    cases h4
  · intro h1 h2 h3 h4
    refine exitCode_one_of_not fl w ?_
    rintro ⟨r, p, _, hd⟩
    simp [h1, h2, h3, h4] at hd
  · intro h hp
    refine exitCode_one_of_not fl w ?_
    rintro ⟨r, p, _, hd⟩
    simp [h, hp] at hd
  · rintro h ⟨e, ho⟩
    refine exitCode_one_of_not fl w ?_
    rintro ⟨r, p, _, hd⟩
    simp [h, ho] at hd
  · rintro h ⟨e, hi⟩
    refine exitCode_one_of_not fl w ?_
    rintro ⟨r, p, _, hd⟩
    simp [h, hi] at hd
  · rintro h ⟨e, hi⟩
    refine exitCode_one_of_not fl w ?_
    rintro ⟨r, p, _, hd⟩
    simp [h, hi] at hd
  · rintro h ⟨e, hi⟩
    refine exitCode_one_of_not fl w ?_
    rintro ⟨r, p, _, hd⟩
    simp [h, hi] at hd
  · rintro h ⟨e, hi⟩
    refine exitCode_one_of_not fl w ?_
    rintro ⟨r, p, _, hd⟩
    simp [h, hi] at hd
  · intro d rel
    rw [runMain_withRelease]
    exact ⟨rfl, rfl⟩
  · intro body s d rel
    rw [call_outcome, call_outcome]

/-- Instances of C3 on the healthy session and on failing ones: the four
registered commands exit with code 0 when their Installer operation succeeds;
a locked `delete`, `install` without a cap file, the unknown command `foo` and
a missing command exit with code 1. -/
theorem exit_code_zero_iff_witness :
    (runMain (Flags.mk "install" "applet.cap" true) worldOk).exitCode = 0 ∧
    (runMain (Flags.mk "status" "" false) worldOk).exitCode = 0 ∧
    (runMain (Flags.mk "delete" "" false) worldOk).exitCode = 0 ∧
    (runMain (Flags.mk "init" "" false) worldOk).exitCode = 0 ∧
    (runMain (Flags.mk "delete" "" false) worldLocked).exitCode = 1 ∧
    (runMain (Flags.mk "install" "" false) worldOk).exitCode = 1 ∧
    (runMain (Flags.mk "foo" "" false) worldOk).exitCode = 1 ∧
    (runMain (Flags.mk "" "" false) worldOk).exitCode = 1 :=
  ⟨(exit_code_zero_iff (Flags.mk "install" "applet.cap" true) worldOk).2.1.mpr
      ⟨"r1", ProtocolT1, ⟨rfl, rfl, rfl, rfl⟩, Or.inl ⟨rfl, by decide, rfl, rfl⟩⟩,
    (exit_code_zero_iff (Flags.mk "status" "" false) worldOk).2.1.mpr
      ⟨"r1", ProtocolT1, ⟨rfl, rfl, rfl, rfl⟩, Or.inr (Or.inl ⟨rfl, true, rfl⟩)⟩,
    (exit_code_zero_iff (Flags.mk "delete" "" false) worldOk).2.1.mpr
      ⟨"r1", ProtocolT1, ⟨rfl, rfl, rfl, rfl⟩, Or.inr (Or.inr (Or.inl ⟨rfl, rfl⟩))⟩,
    (exit_code_zero_iff (Flags.mk "init" "" false) worldOk).2.1.mpr
      ⟨"r1", ProtocolT1, ⟨rfl, rfl, rfl, rfl⟩,
        Or.inr (Or.inr (Or.inr ⟨rfl, Secrets.mk "123456" "000000000000" "abc", rfl⟩))⟩,
    (exit_code_zero_iff (Flags.mk "delete" "" false)
      worldLocked).2.2.2.2.2.2.2.2.2.2.2.2.2.2.2.1 rfl ⟨"locked", rfl⟩,
    (exit_code_zero_iff (Flags.mk "install" "" false) worldOk).2.2.2.2.2.2.2.2.2.2.2.1 rfl rfl,
    (exit_code_zero_iff (Flags.mk "foo" "" false) worldOk).2.2.2.2.2.2.2.2.2.2.1
      (by decide) (by decide) (by decide) (by decide),
    (exit_code_zero_iff (Flags.mk "" "" false) worldOk).2.2.2.2.1 rfl⟩

end AppletInstaller

namespace AppletInstaller

/-- C4 as stated fails: with one reader and a successful connect, a failure of
`card.Status` ends the run before the Installer is created and the command is
looked up. -/
theorem status_failure_stops_before_dispatch :
    ¬ ∀ (fl : Flags) (w : World) (r : String), fl.flagCommand ≠ "" →
        w.establishContext = none → w.listReaders = Except.ok [r] → w.connect r = none →
        Event.newInstaller ∈ (runMain fl w).trace := by
  intro h
  have h2 := h (Flags.mk "status" "" false) worldStatusFails "r1" (by decide) rfl rfl rfl
  revert h2
  decide

/-- C4 amended: with a non-empty command, one reader and a successful connect,
whatever protocol value `card.Status` returns (T0, T1 or any other) the run
logs it and reaches the creation of the Installer and the command lookup; when
`card.Status` itself fails, the run logs "error getting card status" and exits
with code 1 before that point. -/
theorem protocol_detection_reaches_dispatch (fl : Flags) (w : World) (r : String)
    (hc : fl.flagCommand ≠ "") (he : w.establishContext = none)
    (hl : w.listReaders = Except.ok [r]) (hk : w.connect r = none) :
    (∀ p, w.cardStatus = Except.ok p →
      (∃ rest, (runMain fl w).trace =
        [Event.establishContext, Event.listReaders,
          Event.logDebug "using reader" [("name", r)],
          Event.logDebug "connecting to card" [("reader", r)],
          Event.connect r, Event.cardStatus,
          Event.logDebug "card protocol" [("T", protocolLabel p)],
          Event.newInstaller] ++ rest) ∧
      Event.newInstaller ∈ (runMain fl w).trace) ∧
    (∀ e, w.cardStatus = Except.error e →
      runMain fl w = Run.mk [Event.establishContext, Event.listReaders,
        Event.logDebug "using reader" [("name", r)],
        Event.logDebug "connecting to card" [("reader", r)],
        Event.connect r, Event.cardStatus,
        Event.logError "error getting card status" [("error", e)]] 1) := by
  constructor
  · intro p hs
    obtain ⟨rest, hrest⟩ := acquired_trace fl w r p hc ⟨he, hl, hk, hs⟩
    refine ⟨⟨rest, hrest⟩, ?_⟩
    rw [hrest]
    simp [sessionEvents]
  · intro e hs
    exact runMain_status_error fl w r e hc he hl hk hs

/-- Instance of the amended C4: a card reporting the protocol value 7, neither T0 nor T1. -/
theorem protocol_detection_reaches_dispatch_witness :
    Event.newInstaller ∈
      (runMain (Flags.mk "status" "" false)
        (World.mk none (Except.ok ["r1"]) (fun _ => none) (Except.ok 7) none none
          (fun _ => none) (fun _ _ => none) (Except.ok true) none
          (Except.ok (Secrets.mk "1" "2" "3")) [])).trace :=
  ((protocol_detection_reaches_dispatch (Flags.mk "status" "" false)
    (World.mk none (Except.ok ["r1"]) (fun _ => none) (Except.ok 7) none none
      (fun _ => none) (fun _ _ => none) (Except.ok true) none
      (Except.ok (Secrets.mk "1" "2" "3")) [])
    "r1" (by decide) rfl rfl rfl).1 7 rfl).2

/-- C5: when `commandInstall` is called with an empty cap-file path, whatever
the overwrite flag, it logs the missing `-f` flag, prints the usage text and
exits the process with code 1; it does not call `os.Open` and does not call
`Installer.Install`.  The run of `main` that reaches it exits with code 1. -/
theorem install_empty_path_usage (fl : Flags) (w : World) (s : State)
    (hp : fl.flagCapFile = "") :
    commandInstall fl w s =
      (State.mk (s.trace ++
          Event.logError "you must specify a cap file path with the -f flag\n" [] ::
            usageEvents w) s.defers,
        Outcome.exit 1) ∧
    (∀ e ∈ Event.logError "you must specify a cap file path with the -f flag\n" [] ::
          usageEvents w,
      (∀ path, e ≠ Event.osOpen path) ∧ (∀ path o, e ≠ Event.installerInstall path o)) ∧
    Event.printf "\nUsage: hardware-wallet-light COMMAND [FLAGS]\n\nValid commands:\n\n" ∈
      usageEvents w ∧
    (∀ r p, fl.flagCommand = "install" → Acquired w r p → (runMain fl w).exitCode = 1) := by
  refine ⟨commandInstall_empty fl w s hp, ?_, ?_, ?_⟩
  · intro e he
    rcases List.mem_cons.mp he with rfl | h2
    · simp
    · have h3 := usageEvents_no_file_or_installer w e h2
      refine ⟨h3.1, ?_⟩
      intro path o heq
      rw [heq] at h3
      simp [Event.isInstallerOp] at h3
  · simp [usageEvents]
  · intro r p h ha
    rw [runMain_install_empty fl w r p h ha hp]

/-- Instance of C5: `commandInstall` with an empty `-f` value and the overwrite flag set. -/
theorem install_empty_path_usage_witness :
    (commandInstall (Flags.mk "install" "" true) worldOk (State.mk [] [])).2 =
      Outcome.exit 1 := by
  rw [(install_empty_path_usage (Flags.mk "install" "" true) worldOk (State.mk [] []) rfl).1]

/-- C6 as stated fails: the empty cap-file path is detected inside
`commandInstall`, which `main` calls after the hardware calls; in the run
`install` with an empty path on a healthy session, `EstablishContext`,
`ListReaders`, `Connect` and `Status` all occur in the trace. -/
theorem install_usage_exit_after_hardware :
    ¬ ∀ (fl : Flags) (w : World), fl.flagCommand = "install" → fl.flagCapFile = "" →
        Event.establishContext ∉ (runMain fl w).trace ∧
        Event.listReaders ∉ (runMain fl w).trace ∧
        (∀ r, Event.connect r ∉ (runMain fl w).trace) ∧
        Event.cardStatus ∉ (runMain fl w).trace := by
  intro h
  have h2 := (h (Flags.mk "install" "" false) worldOk rfl rfl).1
  revert h2
  decide

/-- C6 amended: in a run with command `install` and an empty cap-file path
whose acquisition steps succeed, the hardware calls `EstablishContext`,
`ListReaders`, `Connect` and `Status` are made first; then the run logs the
missing `-f` flag, prints the usage text and exits with code 1, without any
call of `os.Open` or of an Installer operation. -/
theorem install_empty_path_run (fl : Flags) (w : World) (r : String) (p : Nat)
    (hcmd : fl.flagCommand = "install") (hp : fl.flagCapFile = "") (ha : Acquired w r p) :
    runMain fl w =
      Run.mk ([Event.establishContext, Event.listReaders,
          Event.logDebug "using reader" [("name", r)],
          Event.logDebug "connecting to card" [("reader", r)],
          Event.connect r, Event.cardStatus,
          Event.logDebug "card protocol" [("T", protocolLabel p)],
          Event.newInstaller] ++
        Event.logError "you must specify a cap file path with the -f flag\n" [] ::
          usageEvents w) 1 ∧
    (∀ e ∈ (runMain fl w).trace, (∀ path, e ≠ Event.osOpen path) ∧ e.isInstallerOp = false) := by
  have hrun := runMain_install_empty fl w r p hcmd ha hp
  refine ⟨hrun, ?_⟩
  rw [hrun]
  intro e he
  rcases List.mem_append.mp he with h1 | h2
  · exact sessionEvents_no_file_or_installer r p e h1
  · rcases List.mem_cons.mp h2 with rfl | h3
    · simp [Event.isInstallerOp]
    · exact usageEvents_no_file_or_installer w e h3

/-- Instance of the amended C6: `install` with an empty path on a healthy session. -/
theorem install_empty_path_run_witness :
    (runMain (Flags.mk "install" "" false) worldOk).exitCode = 1 := by
  rw [(install_empty_path_run (Flags.mk "install" "" false) worldOk "r1" ProtocolT1 rfl rfl
    ⟨rfl, rfl, rfl, rfl⟩).1]

/-- C7 (the code departs from the claim): for the unregistered command `foo` on
a healthy session, `main` logs "unknown command" through `fail`, which exits
with code 1; the call of `usage` that follows is never reached, so nothing is
written to standard output. -/
theorem unknown_command_skips_usage :
    runMain (Flags.mk "foo" "" false) worldOk =
      Run.mk [Event.establishContext, Event.listReaders,
        Event.logDebug "using reader" [("name", "r1")],
        Event.logDebug "connecting to card" [("reader", "r1")],
        Event.connect "r1", Event.cardStatus,
        Event.logDebug "card protocol" [("T", "1")],
        Event.newInstaller,
        Event.logError "unknown command" [("command", "foo")]] 1 ∧
    stdout (runMain (Flags.mk "foo" "" false) worldOk).trace = "" ∧
    Event.printf "\nUsage: hardware-wallet-light COMMAND [FLAGS]\n\nValid commands:\n\n" ∉
      (runMain (Flags.mk "foo" "" false) worldOk).trace := by
  refine ⟨by decide, by decide, by decide⟩

end AppletInstaller

namespace AppletInstaller

/-- C8: when `Installer.Info` returns `(b, nil)`, `commandStatus` returns nil
and writes to standard output exactly `applet already installed` if `b` is true
and exactly `applet not installed` if `b` is false; `commandStatus` returns an
error only when `Installer.Info` returns that error; and a run with command
`status` that reaches the handler with the applet absent exits with code 0. -/
theorem commandStatus_reports_info (fl : Flags) (w : World) (s : State) :
    (∀ b, w.info = Except.ok b →
      commandStatus fl w s =
        (State.mk (s.trace ++ [Event.installerInfo,
            Event.printf (if b then "applet already installed\n" else "applet not installed\n")])
            s.defers,
          Outcome.ret none) ∧
      stdout [Event.installerInfo,
          Event.printf (if b then "applet already installed\n" else "applet not installed\n")] =
        (if b then "applet already installed\n" else "applet not installed\n")) ∧
    (∀ e, (commandStatus fl w s).2 = Outcome.ret (some e) → w.info = Except.error e) ∧
    (∀ r p, fl.flagCommand = "status" → Acquired w r p → w.info = Except.ok false →
      (runMain fl w).exitCode = 0 ∧ stdout (runMain fl w).trace = "applet not installed\n") := by
  refine ⟨?_, ?_, ?_⟩
  · intro b hb
    refine ⟨commandStatus_ok fl w s b hb, ?_⟩
    cases b <;> simp [stdout]
  · intro e he
    cases hi : w.info with
    | error e2 =>
      rw [commandStatus_error fl w s e2 hi] at he
      simp at he
      rw [he]
    | ok b =>
      rw [commandStatus_ok fl w s b hi] at he
      simp at he
  · intro r p hcmd ha hi
    rw [runMain_info_ok fl w r p false hcmd ha hi]
    simp [stdout_sessionEvents, stdout]

/-- Instance of C8: the command `status` on a session whose applet is absent. -/
theorem commandStatus_reports_info_witness :
    (runMain (Flags.mk "status" "" false) worldAbsent).exitCode = 0 ∧
      stdout (runMain (Flags.mk "status" "" false) worldAbsent).trace =
        "applet not installed\n" :=
  (commandStatus_reports_info (Flags.mk "status" "" false) worldAbsent (State.mk [] [])).2.2
    "r1" ProtocolT1 rfl ⟨rfl, rfl, rfl, rfl⟩ rfl

/-- C9: when `Installer.Init` succeeds with the secrets `pin`, `puk` and
`pairingPass`, `commandInit` returns nil and its output on standard output is
exactly the three lines `PIN <pin>`, `PUK <puk>`, `Pairing password:
<pairingPass>`, each ended by a newline, in that order; when `Installer.Init`
fails with `e`, `commandInit` returns `e` and prints nothing. -/
theorem commandInit_prints_secrets (fl : Flags) (w : World) (s : State) :
    (∀ pin puk pairingPass : String, w.init = Except.ok (Secrets.mk pin puk pairingPass) →
      commandInit fl w s =
        (State.mk (s.trace ++ [Event.installerInit,
            Event.printf ("PIN " ++ pin ++ "\n"),
            Event.printf ("PUK " ++ puk ++ "\n"),
            Event.printf ("Pairing password: " ++ pairingPass ++ "\n")]) s.defers,
          Outcome.ret none) ∧
      stdout [Event.installerInit,
          Event.printf ("PIN " ++ pin ++ "\n"),
          Event.printf ("PUK " ++ puk ++ "\n"),
          Event.printf ("Pairing password: " ++ pairingPass ++ "\n")] =
        "PIN " ++ pin ++ "\n" ++ ("PUK " ++ puk ++ "\n" ++
          ("Pairing password: " ++ pairingPass ++ "\n"))) ∧
    (∀ e, w.init = Except.error e →
      commandInit fl w s =
        (State.mk (s.trace ++ [Event.installerInit]) s.defers, Outcome.ret (some e)) ∧
      stdout [Event.installerInit] = "") := by
  refine ⟨?_, ?_⟩
  · intro pin puk pairingPass h
    exact ⟨commandInit_ok fl w s (Secrets.mk pin puk pairingPass) h, by simp [stdout]⟩
  · intro e h
    exact ⟨commandInit_error fl w s e h, by simp [stdout]⟩

/-- Instance of C9: the secrets 123456, 000000000000 and abc. -/
theorem commandInit_prints_secrets_witness :
    stdout [Event.installerInit,
        Event.printf ("PIN " ++ "123456" ++ "\n"),
        Event.printf ("PUK " ++ "000000000000" ++ "\n"),
        Event.printf ("Pairing password: " ++ "abc" ++ "\n")] =
      "PIN 123456\nPUK 000000000000\nPairing password: abc\n" :=
  ((commandInit_prints_secrets (Flags.mk "init" "" false) worldOk (State.mk [] [])).1
    "123456" "000000000000" "abc" rfl).2.trans (by decide)

/-- C10 as stated fails for `install`: when `Installer.Install` reports
"locked", the only error entry logged is "installation error" with the single
field `error`; no logged entry has a field whose value is the command name. -/
theorem install_failure_log_lacks_command :
    runMain (Flags.mk "install" "applet.cap" false) worldInstallFails =
      Run.mk [Event.establishContext, Event.listReaders,
        Event.logDebug "using reader" [("name", "r1")],
        Event.logDebug "connecting to card" [("reader", "r1")],
        Event.connect "r1", Event.cardStatus,
        Event.logDebug "card protocol" [("T", "1")],
        Event.newInstaller, Event.osOpen "applet.cap",
        Event.installerInstall "applet.cap" false,
        Event.logError "installation error" [("error", "locked")]] 1 ∧
    ¬ ∃ msg ctx key, Event.logError msg ctx ∈
        (runMain (Flags.mk "install" "applet.cap" false) worldInstallFails).trace ∧
      (key, "install") ∈ ctx := by
  have h : runMain (Flags.mk "install" "applet.cap" false) worldInstallFails =
      Run.mk [Event.establishContext, Event.listReaders,
        Event.logDebug "using reader" [("name", "r1")],
        Event.logDebug "connecting to card" [("reader", "r1")],
        Event.connect "r1", Event.cardStatus,
        Event.logDebug "card protocol" [("T", "1")],
        Event.newInstaller, Event.osOpen "applet.cap",
        Event.installerInstall "applet.cap" false,
        Event.logError "installation error" [("error", "locked")]] 1 := by decide
  refine ⟨h, ?_⟩
  rw [h]
  rintro ⟨msg, ctx, key, hmem, hkey⟩
  simp at hmem
  obtain ⟨_, rfl⟩ := hmem
  simp at hkey

/-- C10 amended: once the handler is reached, a failure `e` of `Installer.Info`,
`Installer.Delete` or `Installer.Init` (commands `status`, `delete`, `init`)
makes the run log "error executing command" with the fields `command` (the
command name) and `error` (`e`) and exit with code 1; a failure `e` of
`Installer.Install` (command `install`, cap file opened) makes the run log
"installation error" with the field `error` (`e`) and exit with code 1.  In
the four cases nothing is written to standard output. -/
theorem installer_failure_logged (fl : Flags) (w : World) (r : String) (p : Nat) (e : Err)
    (ha : Acquired w r p) :
    (fl.flagCommand = "status" → w.info = Except.error e →
      runMain fl w = Run.mk (sessionEvents r p ++ [Event.installerInfo,
        Event.logError "error executing command" [("command", "status"), ("error", e)]]) 1 ∧
      stdout (runMain fl w).trace = "") ∧
    (fl.flagCommand = "delete" → w.delete = some e →
      runMain fl w = Run.mk (sessionEvents r p ++ [Event.installerDelete,
        Event.logError "error executing command" [("command", "delete"), ("error", e)]]) 1 ∧
      stdout (runMain fl w).trace = "") ∧
    (fl.flagCommand = "init" → w.init = Except.error e →
      runMain fl w = Run.mk (sessionEvents r p ++ [Event.installerInit,
        Event.logError "error executing command" [("command", "init"), ("error", e)]]) 1 ∧
      stdout (runMain fl w).trace = "") ∧
    (fl.flagCommand = "install" → fl.flagCapFile ≠ "" → w.osOpen fl.flagCapFile = none →
      w.install fl.flagCapFile fl.flagOverwrite = some e →
      runMain fl w = Run.mk (sessionEvents r p ++ [Event.osOpen fl.flagCapFile,
        Event.installerInstall fl.flagCapFile fl.flagOverwrite,
        Event.logError "installation error" [("error", e)]]) 1 ∧
      stdout (runMain fl w).trace = "") := by
  refine ⟨?_, ?_, ?_, ?_⟩
  · intro hcmd hi
    have h := runMain_info_error fl w r p e hcmd ha hi
    exact ⟨h, by rw [h]; simp [stdout_sessionEvents, stdout]⟩
  · intro hcmd hd
    have h := runMain_delete_error fl w r p e hcmd ha hd
    exact ⟨h, by rw [h]; simp [stdout_sessionEvents, stdout]⟩
  · intro hcmd hi
    have h := runMain_init_error fl w r p e hcmd ha hi
    exact ⟨h, by rw [h]; simp [stdout_sessionEvents, stdout]⟩
  · intro hcmd hp ho hi
    have h := runMain_install_error fl w r p e hcmd ha hp ho hi
    exact ⟨h, by rw [h]; simp [stdout_sessionEvents, stdout]⟩

/-- Instance of the amended C10: `delete` with `Installer.Delete` reporting locked. -/
theorem installer_failure_logged_witness :
    runMain (Flags.mk "delete" "" false) worldLocked =
      Run.mk (sessionEvents "r1" ProtocolT1 ++ [Event.installerDelete,
        Event.logError "error executing command" [("command", "delete"), ("error", "locked")]])
        1 ∧
      stdout (runMain (Flags.mk "delete" "" false) worldLocked).trace = "" :=
  (installer_failure_logged (Flags.mk "delete" "" false) worldLocked "r1" ProtocolT1 "locked"
    ⟨rfl, rfl, rfl, rfl⟩).2.1 rfl rfl

end AppletInstaller
